import Mathlib

/-!
Verification development for the clinical-trial query chatbot backend
(FastAPI app, retriever and chatbot engine). The Python modules
retriever.py, chatbot_engine.py and app.py are shallow-embedded below:
strings are Lean Strings handled through character lists (the corpus and
all fixed keyword tables are ASCII), floating-point similarity scores are
modelled as rationals, and the per-session mutable history is threaded
explicitly through the pipeline step function. Retrieval itself (the
embedding model and vector search) is treated as an opaque parameter of
the pipeline, exactly as the code treats its embedding backend.
-/

namespace PharmaBot

/-! ## String utilities

Python string primitives used by the backend (lower, `in`, split, strip,
re.findall word tokens), implemented over character lists so that every
definition evaluates inside the kernel. Lower-casing is ASCII, which is
what Python str.lower does on this ASCII corpus.
-/

/-- ASCII lower-casing of one character (Python str.lower on ASCII data). -/
def lowerChar (c : Char) : Char :=
  if c.isUpper then Char.ofNat (c.toNat + 32) else c

/-- Lower-case a string. -/
def lowerStr (s : String) : String :=
  String.mk (s.toList.map lowerChar)

/-- The first list is a prefix of the second. -/
def prefixOfList : List Char → List Char → Bool
  | [], _ => true
  | _ :: _, [] => false
  | a :: as, b :: bs => a == b && prefixOfList as bs

/-- needle occurs as a contiguous substring of hay: Python `needle in hay`. -/
def containsSeq (needle : List Char) : List Char → Bool
  | [] => needle.isEmpty
  | c :: cs => prefixOfList needle (c :: cs) || containsSeq needle cs

/-- Python substring test `needle in hay`. -/
def containsStr (hay needle : String) : Bool :=
  containsSeq needle.toList hay.toList

/-- Python regex word character: alphanumeric or underscore. -/
def isWordChar (c : Char) : Bool := c.isAlphanum || c == Char.ofNat 95

/-- Maximal runs of characters satisfying p, as strings (no empty pieces). -/
def runsAux (p : Char → Bool) : List Char → List Char → List String
  | [], acc => if acc.isEmpty then [] else [String.mk acc.reverse]
  | c :: cs, acc =>
    if p c then runsAux p cs (c :: acc)
    else if acc.isEmpty then runsAux p cs []
    else String.mk acc.reverse :: runsAux p cs []

/-- Python re.findall with the word pattern over a string: the word tokens. -/
def tokenize (s : String) : List String := runsAux isWordChar s.toList []

/-- Python str.split() with no argument: split on whitespace runs. -/
def splitWs (s : String) : List String :=
  runsAux (fun c => !c.isWhitespace) s.toList []

/-- Python str.strip(): drop leading and trailing whitespace. -/
def stripStr (s : String) : String :=
  String.mk (((s.toList.dropWhile Char.isWhitespace).reverse.dropWhile
    Char.isWhitespace).reverse)

/-- The apostrophe character, used inside several fixed reply strings. -/
def apos : String := String.singleton (Char.ofNat 39)

/-! ## Data model

SearchResult mirrors the result dictionaries produced by Retriever.search
and consumed by ChatbotEngine: chunk content, the structured-field mapping
of tabular rows (an association list, like a Python dict in insertion
order), the chunk type tag, the L2 score set by search, and the
source-type tag set by get_best_results. Scores are rationals standing for
the non-negative float distances; the fixed cutoff 1.4 is mkRat 14 10.
-/

structure SearchResult where
  content : String := ""
  structured_data : List (String × String) := []
  chunkType : String := ""
  score : ℚ := 0
  source_type : String := ""
deriving DecidableEq

/-- dict.get with a default over the structured-field mapping. -/
def fieldD (sd : List (String × String)) (k dflt : String) : String :=
  (sd.lookup k).getD dflt

/-- One conversation turn, as stored by ChatbotEngine conversation history. -/
structure Turn where
  timestamp : String := ""
  user_message : String := ""
  assistant_message : String := ""
  sources_used : String := ""
deriving DecidableEq

/-! ## retriever.py -/

/-- Excel-indicator keywords of Retriever.classify_query. -/
def excelKeywords : List String :=
  ["dose", "dosing", "dosage", "mg", "frequency",
   "adverse event", "ae", "aes", "side effect",
   "severity", "severe", "moderate", "mild",
   "outcome", "resolved", "ongoing",
   "indication", "population", "reported"]

/-- Doc-indicator keywords of Retriever.classify_query. -/
def docKeywords : List String :=
  ["caution", "label", "note", "guidance", "monitoring",
   "warning", "recommendation", "context", "trial summary",
   "background", "description"]

/-- Number of excel-indicator keywords occurring in the query (each keyword
counted once, as the source sums 1 per keyword present). -/
def excelScoreOf (query : String) : Nat :=
  excelKeywords.countP (containsStr (lowerStr query))

/-- Number of doc-indicator keywords occurring in the query. -/
def docScoreOf (query : String) : Nat :=
  docKeywords.countP (containsStr (lowerStr query))

/-- Retriever.classify_query: source preference from keyword scores. -/
def classify_query (query : String) : String :=
  if docScoreOf query > excelScoreOf query then "doc"
  else if excelScoreOf query > docScoreOf query then "excel"
  else "both"

/-- Drug-attribute keywords that demand a drug name (needs_clarification). -/
def needsDrugKeywords : List String :=
  ["dose", "dosing", "dosage", "adverse event", "ae", "aes",
   "severity", "outcome", "caution", "side effect"]

/-- Fixed drug-name reference list (shared by retriever and engine). -/
def drugList : List String :=
  ["imatinib", "pembrolizumab", "metformin", "nivolumab",
   "trastuzumab", "atezolizumab", "durvalumab", "osimertinib"]

/-- Fixed indication reference list of needs_clarification. -/
def indicationList : List String :=
  ["melanoma", "nsclc", "diabetes", "breast cancer", "cml"]

/-- General-medical terms deferring to the safety gate. -/
def generalMedicalTerms : List String :=
  ["renal", "kidney", "hepatic", "liver", "impairment"]

/-- The fixed clarification prompt. -/
def clarificationMsg : String :=
  "Could you specify the drug name to help me answer accurately?"

/-- Retriever.needs_clarification. -/
def needsClarification (query : String) : Bool × String :=
  let ql := lowerStr query
  let hasDrugKeyword := needsDrugKeywords.any (containsStr ql)
  let hasDrugName := drugList.any (containsStr ql)
  let hasIndication := indicationList.any (containsStr ql)
  let isGeneralMedical := generalMedicalTerms.any (containsStr ql)
  if hasDrugKeyword && !(hasDrugName || hasIndication) && !isGeneralMedical
  then (true, clarificationMsg)
  else (false, "")

/-- Insert into a score-sorted list in front of the first element of larger
or equal score: one step of a stable insertion sort. -/
def insertByScore (a : SearchResult) : List SearchResult → List SearchResult
  | [] => [a]
  | b :: l => if a.score ≤ b.score then a :: b :: l else b :: insertByScore a l

/-- Stable sort by ascending score, modelling the Python list.sort call in
get_best_results (list.sort is documented to be stable). -/
def sortByScore : List SearchResult → List SearchResult
  | [] => []
  | a :: l => insertByScore a (sortByScore l)

/-- Tag a result with its origin, as get_best_results mutates
source_type. -/
def tagSource (st : String) (r : SearchResult) : SearchResult :=
  { r with source_type := st }

/-- The combined tagged result list built by get_best_results: doc results
first (tagged doc), then excel results (tagged excel). -/
def mergedTagged (docResults excelResults : List SearchResult) :
    List SearchResult :=
  docResults.map (tagSource "doc") ++ excelResults.map (tagSource "excel")

/-- The primary-source decision of get_best_results over the selected
slate: none when empty, both when each origin occurs, else the single
occurring origin. -/
def primaryOf (sel : List SearchResult) : String :=
  if sel.isEmpty then "none"
  else
    let docCount := sel.countP (fun r => r.source_type == "doc")
    let excelCount := sel.countP (fun r => r.source_type == "excel")
    if docCount > 0 && excelCount > 0 then "both"
    else if docCount > 0 then "doc"
    else "excel"

/-- Retriever.get_best_results: merge, stable-sort ascending by score, take
the first max_results, and name the primary source. -/
def getBestResults (docResults excelResults : List SearchResult)
    (maxResults : Nat) : List SearchResult × String :=
  let selected := (sortByScore (mergedTagged docResults excelResults)).take
    maxResults
  if selected.isEmpty then ([], "none")
  else (selected, primaryOf selected)

/-! ## chatbot_engine.py -/

/-- Bounded history size (ChatbotEngine.max_history). -/
def maxHistory : Nat := 5

/-- ChatbotEngine._add_to_history: append the turn, then evict the oldest
turn when the length exceeds maxHistory (list.pop(0)). -/
def addToHistory (history : List Turn) (t : Turn) : List Turn :=
  let h := history ++ [t]
  if h.length > maxHistory then h.drop 1 else h

/-- Pronoun tokens of _resolve_pronouns. -/
def pronounList : List String := ["that", "it", "this", "them"]

/-- ChatbotEngine._resolve_pronouns: with a non-empty history and a pronoun
token in the query, append a referring suffix for the first listed drug
found in the most recent turn. -/
def resolvePronouns (history : List Turn) (query : String) : String :=
  match history.getLast? with
  | none => query
  | some last =>
    let ql := lowerStr query
    let hasPronoun := pronounList.any (fun p => (splitWs ql).contains p)
    if hasPronoun then
      let lastMsg := last.user_message ++ " " ++ last.assistant_message
      match drugList.find? (fun d => containsStr (lowerStr lastMsg) (lowerStr d)) with
      | some d => query ++ " (referring to " ++ d ++ ")"
      | none => query
    else query

/-- Medical-advice keywords of _check_safety_guardrails. -/
def medicalAdviceKeywords : List String :=
  ["should i take", "can i take", "prescribe", "recommend taking",
   "what should i do", "treatment plan", "medical advice",
   "diagnose", "can i stop", "should i stop"]

/-- Clinical-decision keywords of _check_safety_guardrails (checked together
with the medical-advice list). -/
def clinicalDecisionKeywords : List String :=
  ["change my dose", "switch to", "should i stop"]

/-- Harmful or inappropriate keywords of _check_safety_guardrails. -/
def harmfulKeywords : List String :=
  ["bomb", "suicide", "kill", "murder", "illegal", "hack", "poison",
   "weapon", "terror", "drug abuse", "high", "recreational"]

/-- The fixed medical-advice refusal text. -/
def medicalRefusalMsg : String :=
  "I cannot provide medical advice or prescriptive recommendations. " ++
  "Please consult the official drug label documentation or a qualified " ++
  "healthcare professional for clinical decisions."

/-- The fixed policy refusal text for harmful requests. -/
def policyRefusalMsg : String :=
  "I cannot fulfill this request as it violates safety policies."

/-- ChatbotEngine._check_safety_guardrails: medical-advice and
clinical-decision keywords are checked first, then harmful keywords;
the first matching set decides the refusal text, none means safe. -/
def checkSafety (query : String) : Option String :=
  let ql := lowerStr query
  if (medicalAdviceKeywords ++ clinicalDecisionKeywords).any (containsStr ql)
  then some medicalRefusalMsg
  else if harmfulKeywords.any (containsStr ql) then some policyRefusalMsg
  else none

/-- Stop words stripped from the query by _is_relevant. -/
def stopWords : List String :=
  ["what", "is", "the", "for", "in", "of", "a", "an", "to", "and", "or",
   "are", "about", "tell", "me", "please", "provide", "give", "how", "much",
   "can", "i", "take", "should", "with", "my", "does", "have", "any", "list",
   "show", "details", "information", "regarding", "suggest", "describe",
   "explain", "check", "mentioned", "mention", "guidance", "guide", "label",
   "discussed", "discuss", "reference", "notes", "note", "described",
   "finding", "findings"]

/-- Key terms of a query: word tokens of the lower-cased query with stop
words removed. The Python source collects them into a set; duplicates are
removed keeping first occurrences, which leaves emptiness and membership
(all _is_relevant consumes) unchanged. -/
def keyTerms (query : String) : List String :=
  ((tokenize (lowerStr query)).filter
    (fun t => !stopWords.contains t)).eraseDups

/-- The synonym table of _is_relevant. -/
def synonymsOf (t : String) : List String :=
  if t == "side" then ["adverse", "events", "ae", "reaction", "toxicity", "safety"]
  else if t == "effect" then ["adverse", "events", "ae", "reaction", "outcome", "efficacy"]
  else if t == "effects" then ["adverse", "events", "ae", "reaction", "outcomes"]
  else if t == "adverse" then ["side", "effect", "toxicity", "safety"]
  else if t == "renal" then ["kidney", "nephro", "crcl", "creatinine", "gfr"]
  else if t == "kidney" then ["renal", "nephro"]
  else if t == "hepatic" then ["liver", "bilirubin", "alt", "ast"]
  else if t == "liver" then ["hepatic"]
  else if t == "dose" then ["dosage", "dosing", "schedule", "amount", "administer", "administration"]
  else if t == "dosage" then ["dose", "dosing", "schedule", "amount", "administration"]
  else if t == "guidance" then ["recommendation", "instruction", "protocol", "note", "label", "prescribing"]
  else if t == "monitoring" then ["check", "assess", "measure", "test", "exam"]
  else if t == "label" then ["prescribing", "guidance", "smpc", "uspi", "package"]
  else if t == "indication" then ["usage", "treat", "diagnosis", "condition", "disease"]
  else []

/-- The searchable text of a candidate built by _is_relevant: lower-cased
content plus the drug name, indication, adverse-event terms, dose and
severity structured fields, all lower-cased. -/
def resultText (r : SearchResult) : String :=
  lowerStr (lowerStr r.content ++ " " ++ fieldD r.structured_data "drug_name" ""
    ++ " " ++ fieldD r.structured_data "indication" ""
    ++ " " ++ fieldD r.structured_data "ae_terms" ""
    ++ " " ++ fieldD r.structured_data "dose" ""
    ++ " " ++ fieldD r.structured_data "severity" "")

/-- One key term matches the searchable text: direct substring, trivial
singular or plural variant, or a synonym-table entry. -/
def termMatches (rt : String) (term : String) : Bool :=
  containsStr rt term
  || (term.endsWith "s" && containsStr rt (term.dropRight 1))
  || containsStr rt (term ++ "s")
  || (synonymsOf term).any (containsStr rt)

/-- ChatbotEngine._is_relevant: pass when no key terms remain, otherwise
pass exactly when at least one key term matches (the source counts the
matched terms with its loop and returns matches greater than zero). -/
def isRelevant (query : String) (r : SearchResult) : Bool :=
  let kt := keyTerms query
  if kt.isEmpty then true
  else decide (0 < kt.countP (termMatches (resultText r)))

/-- The relevance-filtering stage of generate_response: keep results of
score strictly below the fixed cutoff 1.4 (mkRat 14 10), then keep
results passing _is_relevant. -/
def filterResults (query : String) (rs : List SearchResult) :
    List SearchResult :=
  (rs.filter (fun r => decide (r.score < mkRat 14 10))).filter
    (fun r => isRelevant query r)

/-- The fixed greeting phrase set of _is_greeting. -/
def greetingSet : List String :=
  ["hi", "hello", "hey", "greetings", "good morning", "good afternoon",
   "good evening", "thanks", "thank you"]

/-- ChatbotEngine._is_greeting: lower-case, delete every character that is
neither a word character nor whitespace, strip, and test membership in the
fixed greeting set. -/
def isGreeting (query : String) : Bool :=
  let cleaned := stripStr (String.mk ((lowerStr query).toList.filter
    (fun c => isWordChar c || c.isWhitespace)))
  greetingSet.contains cleaned

/-- Split on the two-character separator dot-space, as Python
content.split with that separator (used for sentence windows). -/
def splitDotSpace : List Char → List Char → List (List Char)
  | [], acc => [acc.reverse]
  | [c], acc => [(c :: acc).reverse]
  | c1 :: c2 :: cs, acc =>
    if c1 == Char.ofNat 46 && c2 == Char.ofNat 32 then
      acc.reverse :: splitDotSpace cs []
    else splitDotSpace (c2 :: cs) (c1 :: acc)

/-- ChatbotEngine._extract_relevant_snippet: the densest three-sentence
window by count of query terms longer than three characters, wrapped in
ellipses, falling back to the first 500 characters. -/
def extractRelevantSnippet (content query : String) : String :=
  let qterms := (tokenize (lowerStr query)).filter (fun t => t.length > 3)
  let first500 := String.mk (content.toList.take 500)
  if qterms.isEmpty then first500
  else
    let sentences := (splitDotSpace content.toList []).map String.mk
    let step := fun (acc : String × Nat) (i : Nat) =>
      let window := String.intercalate ". " ((sentences.drop i).take 3)
      let count := qterms.countP (fun t => containsStr (lowerStr window) t)
      if count > acc.2 then (window, count) else acc
    let best := (List.range sentences.length).foldl step (first500, 0)
    if best.2 > 0 then "..." ++ best.1 ++ "..." else first500

/-- Unique non-empty values of one structured field across a group of
records. The source collects them into a Python set and joins it; set
iteration order is not specified there, so the model keeps first-occurrence
order. -/
def fieldVals (recs : List (List (String × String))) (k : String) :
    List String :=
  ((recs.map (fun d => fieldD d k "")).filter (fun v => v ≠ "")).eraseDups

/-- One drug block of _format_excel_results. -/
def formatDrugBlock (showDose showAe showSev showOut : Bool) (drug : String)
    (recs : List (List (String × String))) : String :=
  let indications := fieldVals recs "indication"
  let doses := fieldVals recs "dose"
  let aes := fieldVals recs "ae_terms"
  let sevs := fieldVals recs "severity"
  let outs := fieldVals recs "outcome"
  let parts := ["**" ++ drug ++ "**:"]
    ++ (if !indications.isEmpty then
        ["- Indication: " ++ String.intercalate ", " indications] else [])
    ++ (if !doses.isEmpty && showDose then
        ["- Dose: " ++ String.intercalate ", " doses] else [])
    ++ (if !aes.isEmpty && showAe then
        ["- Adverse Events: " ++ String.intercalate ", " aes] else [])
    ++ (if !sevs.isEmpty && showSev then
        ["- Severity: " ++ String.intercalate ", " sevs] else [])
    ++ (if !outs.isEmpty && showOut then
        ["- Outcome: " ++ String.intercalate ", " outs] else [])
    ++ (if !(showDose || showAe || showSev || showOut) then
        (if !doses.isEmpty then
          ["- Dose: " ++ String.intercalate ", " doses] else [])
        ++ (if !aes.isEmpty then
          ["- Adverse Events: " ++ String.intercalate ", " aes] else [])
        ++ (if !sevs.isEmpty then
          ["- Severity: " ++ String.intercalate ", " sevs] else [])
      else [])
  String.intercalate "\n" parts

/-- ChatbotEngine._format_excel_results: group the top three results by
drug name (Python dict grouping keeps first-occurrence order) and render
one block per drug, selecting fields by query intent. -/
def formatExcelResults (results : List SearchResult) (query : String) :
    List String :=
  let ql := lowerStr query
  let showDose := containsStr ql "dose" || containsStr ql "dosing"
    || containsStr ql "dosage"
  let showAe := ["ae", "adverse", "side effect"].any (containsStr ql)
  let showSev := containsStr ql "severity" || containsStr ql "severe"
  let showOut := containsStr ql "outcome" || containsStr ql "resolved"
  let top := results.take 3
  let keys := (top.map
    (fun r => fieldD r.structured_data "drug_name" "Unknown")).eraseDups
  keys.map (fun drug => formatDrugBlock showDose showAe showSev showOut drug
    ((top.filter
      (fun r => fieldD r.structured_data "drug_name" "Unknown" == drug)).map
      (fun r => r.structured_data)))

/-- ChatbotEngine._format_doc_results: for the top two doc results, render
the structured field pairs of table chunks, else the densest snippet of
non-empty paragraph content. -/
def formatDocResults (results : List SearchResult) (query : String) :
    List String :=
  (results.take 2).foldl (fun acc r =>
    if r.chunkType == "table" then
      if !r.structured_data.isEmpty then
        let parts := (r.structured_data.filter (fun kv => kv.2 ≠ "")).map
          (fun kv => "**" ++ kv.1 ++ "**: " ++ kv.2)
        if !parts.isEmpty then acc ++ [String.intercalate "\n" parts] else acc
      else acc
    else if r.content ≠ "" then
      acc ++ [extractRelevantSnippet r.content query]
    else acc) []

/-- The greeting reply of generate_response. -/
def greetingReply : String :=
  "Hello! I am your Clinical Trial Assistant. How can I help you " ++
  "regarding drug dosages, adverse events, or clinical contexts?"

/-- The static reply of generate_response when filtering leaves nothing. -/
def noRelevantMsg : String :=
  "I apologize, but I couldn" ++ apos ++ "t find relevant information " ++
  "regarding your query in the provided clinical trial documents."

/-- The fallback reply when formatting yields no parts. -/
def dontKnowMsg : String :=
  "I don" ++ apos ++ "t know based on the available data."

/-- The excel source name cited by generate_response. -/
def excelSourceName : String := "Pharma_Clinical_Trial_AllDrugs.xlsx"

/-- The doc source name cited by generate_response. -/
def docSourceName : String := "Pharma_Clinical_Trial_Notes.docx"

/-- Result of ChatbotEngine.generate_response: the reply, its citation, the
updated session history, and whether the formatting (synthesis) stage was
reached. -/
structure GenResult where
  response : String
  citation : String
  history : List Turn
  synthesisInvoked : Bool

/-- ChatbotEngine.generate_response. The primarySource argument is accepted
and unused, as in the source. The timestamp of the appended turn is the
supplied clock value. -/
def generateResponse (query : String) (retrieved : List SearchResult)
    (_primarySource : String) (history : List Turn) (now : String) :
    GenResult :=
  match checkSafety query with
  | some msg =>
    { response := msg, citation := "none",
      history := addToHistory history ⟨now, query, msg, "none"⟩,
      synthesisInvoked := false }
  | none =>
    if isGreeting query then
      { response := greetingReply, citation := "none",
        history := addToHistory history ⟨now, query, greetingReply, "none"⟩,
        synthesisInvoked := false }
    else
      let relevant := filterResults query retrieved
      if relevant.isEmpty then
        { response := noRelevantMsg, citation := "none",
          history := addToHistory history ⟨now, query, noRelevantMsg, "none"⟩,
          synthesisInvoked := false }
      else
        let docR := relevant.filter (fun r => r.source_type == "doc")
        let excelR := relevant.filter (fun r => r.source_type == "excel")
        let parts :=
          (if !excelR.isEmpty then formatExcelResults excelR query else [])
          ++ (if !docR.isEmpty then formatDocResults docR query else [])
        if parts.isEmpty then
          { response := dontKnowMsg, citation := "none",
            history := addToHistory history ⟨now, query, dontKnowMsg, "none"⟩,
            synthesisInvoked := true }
        else
          let response := String.intercalate "\n\n" parts
          let names := (if !excelR.isEmpty then [excelSourceName] else [])
            ++ (if !docR.isEmpty then [docSourceName] else [])
          let citation := String.intercalate ", " names
          { response := response, citation := citation,
            history := addToHistory history ⟨now, query, response, citation⟩,
            synthesisInvoked := true }

/-! ## app.py: the chat endpoint

The /api/chat handler is modelled as one step function over the history of
the addressed session. The retriever search backend (embedding model plus
nearest-neighbor scan) is an opaque parameter mapping the enhanced query
and the source preference to the pair of doc and excel result lists, as
Retriever.search does; the step records whether that backend was invoked
and whether the synthesis (formatting) stage ran. The logged flags
is_unknown and is_safety_refusal are computed exactly as the handler does,
by substring tests on the assistant message.
-/

/-- The marker substring the handler searches for to flag an unknown
answer. -/
def unknownMarker : String :=
  "don" ++ apos ++ "t know based on the available data"

/-- The marker substring the handler searches for to flag a safety
refusal. -/
def safetyMarker : String := "cannot provide medical advice"

/-- A search backend: enhanced query and source preference to doc results
and excel results. -/
def SearchFn : Type := String → String → List SearchResult × List SearchResult

/-- A backend with both corpus indices absent: search returns two empty
lists. -/
def emptySearch : SearchFn := fun _ _ => ([], [])

/-- The outcome of one completed /api/chat request: the response fields,
the logged flags, the updated session history, and which pipeline stages
ran. -/
structure ChatOutcome where
  assistant_message : String
  source_citation : String
  retrieved_count : Nat
  is_clarification : Bool
  is_unknown : Bool
  is_safety_refusal : Bool
  history : List Turn
  searchInvoked : Bool
  synthesisInvoked : Bool

/-- The best-results slate the handler passes to generate_response, as a
function of the backend, the session history and the raw message. -/
def pipelineBest (f : SearchFn) (history : List Turn)
    (userMessageRaw : String) : List SearchResult :=
  let user_message := stripStr userMessageRaw
  let enhanced := resolvePronouns history user_message
  let res := f enhanced (classify_query enhanced)
  (getBestResults res.1 res.2 3).1

/-- The outcome of a clarification turn: the handler returns the fixed
prompt, logs is_clarification, and never touches the session history or
the search backend. -/
def clarOutcome (history : List Turn) (enhanced : String) : ChatOutcome :=
  { assistant_message := (needsClarification enhanced).2,
    source_citation := "none", retrieved_count := 0,
    is_clarification := true, is_unknown := false,
    is_safety_refusal := false, history := history,
    searchInvoked := false, synthesisInvoked := false }

/-- The outcome of a non-clarification turn: classify, search, fuse,
generate, then flag unknown answers and safety refusals by substring
tests on the assistant message. -/
def mainOutcome (f : SearchFn) (now : String) (history : List Turn)
    (userMessageRaw : String) : ChatOutcome :=
  let user_message := stripStr userMessageRaw
  let enhanced := resolvePronouns history user_message
  let best := pipelineBest f history userMessageRaw
  let primary :=
    let res := f enhanced (classify_query enhanced)
    (getBestResults res.1 res.2 3).2
  let g := generateResponse user_message best primary history now
  { assistant_message := g.response,
    source_citation := g.citation,
    retrieved_count := best.length,
    is_clarification := false,
    is_unknown := containsStr g.response unknownMarker,
    is_safety_refusal := containsStr g.response safetyMarker,
    history := g.history,
    searchInvoked := true,
    synthesisInvoked := g.synthesisInvoked }

/-- The /api/chat handler: strip the message (empty is rejected with a 400,
modelled as none), resolve pronouns, ask for clarification, otherwise run
the retrieval-and-generation path. -/
def chatStep (f : SearchFn) (now : String) (history : List Turn)
    (userMessageRaw : String) : Option ChatOutcome :=
  let user_message := stripStr userMessageRaw
  if user_message = "" then none
  else
    let enhanced := resolvePronouns history user_message
    if (needsClarification enhanced).1 then some (clarOutcome history enhanced)
    else some (mainOutcome f now history userMessageRaw)

/-! ## Helper lemmas -/

set_option maxRecDepth 100000

theorem needsClarification_snd {q : String}
    (h : (needsClarification q).1 = true) :
    (needsClarification q).2 = clarificationMsg := by
  simp only [needsClarification] at h ⊢
  split at h
  · split
    · rfl
    · simp_all
  · simp at h

theorem checkSafety_cases {q r : String} (h : checkSafety q = some r) :
    r = medicalRefusalMsg ∨ r = policyRefusalMsg := by
  simp only [checkSafety] at h
  split at h
  · exact Or.inl (Option.some.inj h).symm
  · split at h
    · exact Or.inr (Option.some.inj h).symm
    · exact absurd h (by simp)

theorem chatStep_clar (f : SearchFn) (now : String) (history : List Turn)
    (raw : String) (hne : stripStr raw ≠ "")
    (hc : (needsClarification (resolvePronouns history (stripStr raw))).1
      = true) :
    chatStep f now history raw =
      some (clarOutcome history (resolvePronouns history (stripStr raw))) := by
  simp [chatStep, hne, hc]

theorem chatStep_main (f : SearchFn) (now : String) (history : List Turn)
    (raw : String) (hne : stripStr raw ≠ "")
    (hc : (needsClarification (resolvePronouns history (stripStr raw))).1
      = false) :
    chatStep f now history raw = some (mainOutcome f now history raw) := by
  simp [chatStep, hne, hc]

theorem perm_insertByScore (a : SearchResult) (l : List SearchResult) :
    (insertByScore a l).Perm (a :: l) := by
  induction l with
  | nil => simp [insertByScore]
  | cons b t ih =>
    by_cases h : a.score ≤ b.score
    · simp [insertByScore, h]
    · simp only [insertByScore, if_neg h]
      exact (ih.cons b).trans (List.Perm.swap a b t)

theorem perm_sortByScore (l : List SearchResult) :
    (sortByScore l).Perm l := by
  induction l with
  | nil => simp [sortByScore]
  | cons a t ih =>
    exact (perm_insertByScore a (sortByScore t)).trans (ih.cons a)

theorem mem_insertByScore {x a : SearchResult} {l : List SearchResult} :
    x ∈ insertByScore a l ↔ x = a ∨ x ∈ l := by
  rw [(perm_insertByScore a l).mem_iff]
  simp

theorem pairwise_insertByScore (a : SearchResult) {l : List SearchResult}
    (h : l.Pairwise (fun x y => x.score ≤ y.score)) :
    (insertByScore a l).Pairwise (fun x y => x.score ≤ y.score) := by
  induction l with
  | nil => simp [insertByScore]
  | cons b t ih =>
    rw [List.pairwise_cons] at h
    by_cases hab : a.score ≤ b.score
    · simp only [insertByScore, if_pos hab, List.pairwise_cons]
      refine ⟨?_, h.1, h.2⟩
      intro x hx
      rcases List.mem_cons.mp hx with rfl | hx
      · exact hab
      · exact le_trans hab (h.1 x hx)
    · simp only [insertByScore, if_neg hab, List.pairwise_cons]
      refine ⟨?_, ih h.2⟩
      intro x hx
      rcases mem_insertByScore.mp hx with rfl | hx
      · exact le_of_not_le hab
      · exact h.1 x hx

theorem sorted_sortByScore (l : List SearchResult) :
    (sortByScore l).Pairwise (fun x y => x.score ≤ y.score) := by
  induction l with
  | nil => simp [sortByScore]
  | cons a t ih => exact pairwise_insertByScore a ih

theorem filter_insertByScore (c : ℚ) (a : SearchResult)
    (l : List SearchResult) :
    (insertByScore a l).filter (fun r => decide (r.score = c)) =
      if a.score = c then
        a :: l.filter (fun r => decide (r.score = c))
      else l.filter (fun r => decide (r.score = c)) := by
  induction l with
  | nil => by_cases h : a.score = c <;> simp [insertByScore, h]
  | cons b t ih =>
    by_cases hab : a.score ≤ b.score
    · simp only [insertByScore, if_pos hab, List.filter_cons]
      by_cases h : a.score = c <;> by_cases hb : b.score = c <;>
        simp [h, hb]
    · have hba : b.score < a.score := lt_of_not_le hab
      simp only [insertByScore, if_neg hab, List.filter_cons, ih]
      by_cases hb : b.score = c
      · have ha : ¬ a.score = c := by
          rw [← hb]
          exact (ne_of_gt hba)
        simp [hb, ha]
      · by_cases ha : a.score = c <;> simp [hb, ha]

theorem filter_sortByScore (c : ℚ) (l : List SearchResult) :
    (sortByScore l).filter (fun r => decide (r.score = c)) =
      l.filter (fun r => decide (r.score = c)) := by
  induction l with
  | nil => simp [sortByScore]
  | cons a t ih =>
    simp only [sortByScore, filter_insertByScore, ih, List.filter_cons]
    by_cases h : a.score = c <;> simp [h]

theorem mem_mergedTagged {r : SearchResult} {d e : List SearchResult}
    (h : r ∈ mergedTagged d e) :
    r.source_type = "doc" ∨ r.source_type = "excel" := by
  rcases List.mem_append.mp h with h | h <;>
    rcases List.mem_map.mp h with ⟨x, _, rfl⟩ <;> simp [tagSource]

theorem primaryOf_spec (sel : List SearchResult)
    (hdich : ∀ r ∈ sel, r.source_type = "doc" ∨ r.source_type = "excel") :
    (primaryOf sel = "both" ↔
      (∃ r ∈ sel, r.source_type = "doc") ∧
      (∃ r ∈ sel, r.source_type = "excel")) ∧
    (primaryOf sel = "doc" ↔
      (∃ r ∈ sel, r.source_type = "doc") ∧
      ¬ ∃ r ∈ sel, r.source_type = "excel") ∧
    (primaryOf sel = "excel" ↔
      (∃ r ∈ sel, r.source_type = "excel") ∧
      ¬ ∃ r ∈ sel, r.source_type = "doc") ∧
    (primaryOf sel = "none" ↔ sel = []) := by
  by_cases hemp : sel = []
  · subst hemp
    simp [primaryOf]
  · have hne : sel.isEmpty = false := by
      simpa [List.isEmpty_iff] using hemp
    have hdoc : (0 < sel.countP (fun r => r.source_type == "doc")) ↔
        ∃ r ∈ sel, r.source_type = "doc" := by
      rw [List.countP_pos_iff]
      simp
    have hexc : (0 < sel.countP (fun r => r.source_type == "excel")) ↔
        ∃ r ∈ sel, r.source_type = "excel" := by
      rw [List.countP_pos_iff]
      simp
    simp only [primaryOf, hne, Bool.false_eq_true, if_false]
    by_cases hd : 0 < sel.countP (fun r => r.source_type == "doc") <;>
      by_cases he : 0 < sel.countP (fun r => r.source_type == "excel")
    · rw [if_pos (by simp [hd, he])]
      exact ⟨iff_of_true rfl ⟨hdoc.mp hd, hexc.mp he⟩,
        iff_of_false (by decide) (fun h => h.2 (hexc.mp he)),
        iff_of_false (by decide) (fun h => h.2 (hdoc.mp hd)),
        iff_of_false (by decide) hemp⟩
    · rw [if_neg (by simp [he]), if_pos (by simp [hd])]
      exact ⟨iff_of_false (by decide) (fun h => he (hexc.mpr h.2)),
        iff_of_true rfl ⟨hdoc.mp hd, fun hy => he (hexc.mpr hy)⟩,
        iff_of_false (by decide) (fun h => h.2 (hdoc.mp hd)),
        iff_of_false (by decide) hemp⟩
    · rw [if_neg (by simp [hd]), if_neg (by simp [hd])]
      exact ⟨iff_of_false (by decide) (fun h => hd (hdoc.mpr h.1)),
        iff_of_false (by decide) (fun h => hd (hdoc.mpr h.1)),
        iff_of_true rfl ⟨hexc.mp he, fun hy => hd (hdoc.mpr hy)⟩,
        iff_of_false (by decide) hemp⟩
    · exfalso
      obtain ⟨a, ha⟩ : ∃ a, a ∈ sel := by
        cases sel with
        | nil => exact absurd rfl hemp
        | cons a t => exact ⟨a, List.mem_cons_self a t⟩
      rcases hdich a ha with h | h
      · exact hd (hdoc.mpr ⟨a, ha, h⟩)
      · exact he (hexc.mpr ⟨a, ha, h⟩)

theorem getBestResults_fst (d e : List SearchResult) (m : Nat) :
    (getBestResults d e m).1 = (sortByScore (mergedTagged d e)).take m := by
  simp only [getBestResults]
  split
  · rename_i h
    simp_all [List.isEmpty_iff]
  · rfl

theorem getBestResults_snd (d e : List SearchResult) (m : Nat) :
    (getBestResults d e m).2 =
      primaryOf ((sortByScore (mergedTagged d e)).take m) := by
  simp only [getBestResults]
  split
  · rename_i h
    have hnil := List.isEmpty_iff.mp h
    simp [hnil, primaryOf]
  · rfl

/-! ## Claim theorems -/

/-- C5: a retrieved result survives the relevance-filtering stage exactly
when its score is strictly below the fixed cutoff 1.4 (mkRat 14 10) and it
passes the lexical check; the lexical check passes by default when no key
terms remain after lower-casing and stop-word stripping, and otherwise
passes exactly when at least one key term matches the searchable text by
substring, singular-plural variant, or the synonym table; at the boundary
a result of score 1.4 is excluded while 1.3999 is retained. -/
theorem relevance_filter_characterization :
    (∀ (q : String) (rs : List SearchResult) (r : SearchResult),
      r ∈ filterResults q rs ↔
        r ∈ rs ∧ r.score < mkRat 14 10 ∧ isRelevant q r = true) ∧
    (∀ (q : String) (r : SearchResult),
      isRelevant q r = true ↔
        (keyTerms q = [] ∨
          ∃ t ∈ keyTerms q, termMatches (resultText r) t = true)) ∧
    filterResults "metformin"
      [{ content := "metformin data", score := mkRat 14 10 },
       { content := "metformin data", score := mkRat 13999 10000 }] =
      [{ content := "metformin data", score := mkRat 13999 10000 }] := by
  refine ⟨fun q rs r => ?_, fun q r => ?_, by decide⟩
  · simp only [filterResults, List.mem_filter, and_assoc, decide_eq_true_eq]
  · by_cases h : (keyTerms q).isEmpty
    · simp [isRelevant, h, List.isEmpty_iff.mp h]
    · have hne : keyTerms q ≠ [] := by
        simpa [List.isEmpty_iff] using h
      simp only [isRelevant, h, Bool.false_eq_true, if_false,
        decide_eq_true_eq, List.countP_pos_iff]
      simp [hne]

/-- C6: result fusion tags each doc result doc and each excel (tabular)
result excel, merges them, sorts ascending by score with a stable sort
(equal-score results keep their merge order, stated as filter-preservation
on every score class), takes the first three, and names the primary source
both, the single present origin, or none for an empty slate; on the
concrete slate 0.3 doc, 0.9 excel, 2.0 excel the order and the primary
source both come out as the specification example demands. -/
theorem fusion_characterization :
    (∀ d e : List SearchResult,
      (getBestResults d e 3).1 = (sortByScore (mergedTagged d e)).take 3) ∧
    (∀ l : List SearchResult, (sortByScore l).Perm l) ∧
    (∀ l : List SearchResult,
      (sortByScore l).Pairwise (fun x y => x.score ≤ y.score)) ∧
    (∀ d e : List SearchResult,
      ((getBestResults d e 3).1).Pairwise (fun x y => x.score ≤ y.score)) ∧
    (∀ (l : List SearchResult) (c : ℚ),
      (sortByScore l).filter (fun r => decide (r.score = c)) =
        l.filter (fun r => decide (r.score = c))) ∧
    (∀ d e : List SearchResult,
      ((getBestResults d e 3).2 = "both" ↔
        (∃ r ∈ (getBestResults d e 3).1, r.source_type = "doc") ∧
        (∃ r ∈ (getBestResults d e 3).1, r.source_type = "excel")) ∧
      ((getBestResults d e 3).2 = "doc" ↔
        (∃ r ∈ (getBestResults d e 3).1, r.source_type = "doc") ∧
        ¬ ∃ r ∈ (getBestResults d e 3).1, r.source_type = "excel") ∧
      ((getBestResults d e 3).2 = "excel" ↔
        (∃ r ∈ (getBestResults d e 3).1, r.source_type = "excel") ∧
        ¬ ∃ r ∈ (getBestResults d e 3).1, r.source_type = "doc") ∧
      ((getBestResults d e 3).2 = "none" ↔ (getBestResults d e 3).1 = [])) ∧
    getBestResults [{ score := mkRat 3 10 }]
        [{ score := mkRat 9 10 }, { score := 2 }] 3 =
      ([{ score := mkRat 3 10, source_type := "doc" },
        { score := mkRat 9 10, source_type := "excel" },
        { score := 2, source_type := "excel" }], "both") := by
  refine ⟨fun d e => getBestResults_fst d e 3,
    perm_sortByScore, sorted_sortByScore, fun d e => ?_,
    fun l c => filter_sortByScore c l, fun d e => ?_, by decide⟩
  · rw [getBestResults_fst]
    exact List.Pairwise.sublist (List.take_sublist _ _) (sorted_sortByScore _)
  · have hd : ∀ r ∈ (sortByScore (mergedTagged d e)).take 3,
        r.source_type = "doc" ∨ r.source_type = "excel" :=
      fun r hr =>
        mem_mergedTagged ((perm_sortByScore _).subset (List.take_subset _ _ hr))
    have hs := primaryOf_spec _ hd
    rw [getBestResults_fst, getBestResults_snd]
    exact hs

/-- C7: classify_query counts, case-insensitively, how many of the fixed
excel-indicator keywords and how many of the fixed doc-indicator keywords
occur in the query, returns doc exactly when the doc count strictly
exceeds the excel count, excel (the tabular corpus) exactly when the excel
count strictly exceeds the doc count, and both exactly on ties; swapping
the doc keyword of a query for an excel keyword flips doc to excel, and a
query holding one keyword of each set returns both. -/
theorem classify_characterization :
    (∀ q : String,
      (classify_query q = "doc" ↔ excelScoreOf q < docScoreOf q) ∧
      (classify_query q = "excel" ↔ docScoreOf q < excelScoreOf q) ∧
      (classify_query q = "both" ↔ docScoreOf q = excelScoreOf q)) ∧
    classify_query "is there a warning" = "doc" ∧
    classify_query "is there a severity" = "excel" ∧
    classify_query "warning and severity" = "both" := by
  refine ⟨fun q => ?_, by decide, by decide, by decide⟩
  unfold classify_query
  rcases lt_trichotomy (docScoreOf q) (excelScoreOf q) with h | h | h
  · rw [if_neg (by omega), if_pos h]
    exact ⟨iff_of_false (by decide) (by omega),
      iff_of_true rfl h, iff_of_false (by decide) (by omega)⟩
  · rw [if_neg (by omega), if_neg (by omega)]
    exact ⟨iff_of_false (by decide) (by omega),
      iff_of_false (by decide) (by omega), iff_of_true rfl h⟩
  · rw [if_pos h]
    exact ⟨iff_of_true rfl h, iff_of_false (by decide) (by omega),
      iff_of_false (by decide) (by omega)⟩

/-- C8: the session history is bounded FIFO at five turns: appending a
turn to a history already holding at least five turns evicts the oldest
turn (so the length is unchanged), appending to a shorter history grows it
by one, and folding six turns into an empty history leaves exactly the
most recent five turns in their original order. -/
theorem history_bounded_fifo :
    (∀ (h : List Turn) (t : Turn),
      addToHistory h t =
        if maxHistory ≤ h.length then h.tail ++ [t] else h ++ [t]) ∧
    (∀ (h : List Turn) (t : Turn),
      (addToHistory h t).length =
        if maxHistory ≤ h.length then h.length else h.length + 1) ∧
    (∀ t1 t2 t3 t4 t5 t6 : Turn,
      List.foldl addToHistory [] [t1, t2, t3, t4, t5, t6] =
        [t2, t3, t4, t5, t6]) := by
  have key : ∀ (h : List Turn) (t : Turn),
      addToHistory h t =
        if maxHistory ≤ h.length then h.tail ++ [t] else h ++ [t] := by
    intro h t
    simp only [addToHistory]
    by_cases hle : maxHistory ≤ h.length
    · have hgt : (h ++ [t]).length > maxHistory := by
        simp only [List.length_append, List.length_cons, List.length_nil]
        omega
      rw [if_pos hgt, if_pos hle]
      cases h with
      | nil => simp [maxHistory] at hle
      | cons a h => simp
    · have hng : ¬ (h ++ [t]).length > maxHistory := by
        simp only [List.length_append, List.length_cons, List.length_nil]
        omega
      rw [if_neg hng, if_neg hle]
  refine ⟨key, fun h t => ?_, fun t1 t2 t3 t4 t5 t6 => rfl⟩
  rw [key]
  by_cases hle : maxHistory ≤ h.length
  · rw [if_pos hle, if_pos hle]
    cases h with
    | nil => simp [maxHistory] at hle
    | cons a h => simp
  · rw [if_neg hle, if_neg hle]
    simp

/-- C9: the relevance filter is idempotent: applying the distance-cutoff
and lexical filtering to an already-filtered list for the same query
returns the list unchanged. -/
theorem relevance_filter_idempotent :
    ∀ (q : String) (rs : List SearchResult),
      filterResults q (filterResults q rs) = filterResults q rs := by
  intro q rs
  unfold filterResults
  have h1 : ∀ a ∈ (rs.filter
      (fun r => decide (r.score < mkRat 14 10))).filter
      (fun r => isRelevant q r),
      decide (a.score < mkRat 14 10) = true := by
    intro a ha
    have ha2 : a ∈ rs.filter (fun r => decide (r.score < mkRat 14 10)) :=
      List.mem_of_mem_filter ha
    have ha3 := List.of_mem_filter ha2
    exact ha3
  have h2 : ∀ a ∈ (rs.filter
      (fun r => decide (r.score < mkRat 14 10))).filter
      (fun r => isRelevant q r),
      isRelevant q a = true :=
    fun a ha => List.of_mem_filter ha
  rw [List.filter_eq_self.mpr h1, List.filter_eq_self.mpr h2]

/-- C1 counterexample: the query contains the medical-advice trigger
keyword but the pipeline still invokes the embedding-index search, because
the handler runs classify and search before generate_response and the
safety gate only fires inside generate_response. This refutes the claim
that a triggered query never reaches retrieval. -/
theorem search_invoked_for_unsafe_query :
    containsStr (lowerStr "should i take metformin") "should i take" = true ∧
    (chatStep emptySearch "t" [] "should i take metformin").map
      (fun o => o.searchInvoked) = some true :=
  ⟨by decide, by decide⟩

/-- C1 amended: for a query the safety gate deems unsafe (and that the
clarification check does not intercept first), the gate fires inside
response generation, after retrieval: the search backend IS invoked, the
synthesis stage is not, the reply is the refusal text, the turn is not
logged as an unknown answer, and medical-advice refusals are logged as
safety refusals. -/
theorem safety_gate_fires_inside_generation (f : SearchFn) (now : String)
    (history : List Turn) (raw r : String)
    (hne : stripStr raw ≠ "")
    (hc : (needsClarification
      (resolvePronouns history (stripStr raw))).1 = false)
    (hs : checkSafety (stripStr raw) = some r) :
    (chatStep f now history raw).map (fun o =>
      (o.searchInvoked, o.synthesisInvoked, o.assistant_message,
        o.is_unknown)) = some (true, false, r, false) ∧
    (r = medicalRefusalMsg →
      (chatStep f now history raw).map (fun o => o.is_safety_refusal) =
        some true) := by
  rw [chatStep_main f now history raw hne hc]
  rcases checkSafety_cases hs with h | h <;> subst h <;>
    simp [mainOutcome, generateResponse, hs] <;> decide

/-- Witness for the amended C1 at a concrete medical-advice query. -/
theorem safety_gate_fires_inside_generation_witness :
    stripStr "should i take metformin" ≠ "" ∧
    (needsClarification (resolvePronouns []
      (stripStr "should i take metformin"))).1 = false ∧
    checkSafety (stripStr "should i take metformin") =
      some medicalRefusalMsg ∧
    ((chatStep emptySearch "t" [] "should i take metformin").map (fun o =>
      (o.searchInvoked, o.synthesisInvoked, o.assistant_message,
        o.is_unknown)) = some (true, false, medicalRefusalMsg, false) ∧
    (medicalRefusalMsg = medicalRefusalMsg →
      (chatStep emptySearch "t" [] "should i take metformin").map
        (fun o => o.is_safety_refusal) = some true)) :=
  ⟨by decide, by decide, by decide,
    safety_gate_fires_inside_generation emptySearch "t" []
      "should i take metformin" medicalRefusalMsg
      (by decide) (by decide) (by decide)⟩

/-- C2 counterexample: a turn whose retrieval and filtering yield nothing
produces the static no-relevant-information reply with citation none, but
its is_unknown flag is false, because the handler detects unknown answers
by searching the reply for the other fallback phrase, which this reply
does not contain. This refutes the claim that such a turn carries
isUnknown equal true. -/
theorem no_grounding_not_flagged_unknown :
    filterResults (stripStr "tell me about xenon")
      (pipelineBest emptySearch [] "tell me about xenon") = [] ∧
    (chatStep emptySearch "t" [] "tell me about xenon").map (fun o =>
      (o.assistant_message, o.source_citation, o.is_unknown)) =
      some (noRelevantMsg, "none", false) :=
  ⟨by decide, by decide⟩

/-- C2 amended: when retrieval plus filtering yields no usable result (and
the turn is not intercepted by clarification, the safety gate, or the
greeting check), the pipeline returns the static no-relevant-information
reply with citation none, and the returned response and logged event carry
is_unknown equal false and is_safety_refusal equal false. -/
theorem no_grounding_reply_and_flags (f : SearchFn) (now : String)
    (history : List Turn) (raw : String)
    (hne : stripStr raw ≠ "")
    (hc : (needsClarification
      (resolvePronouns history (stripStr raw))).1 = false)
    (hs : checkSafety (stripStr raw) = none)
    (hg : isGreeting (stripStr raw) = false)
    (hf : filterResults (stripStr raw) (pipelineBest f history raw) = []) :
    (chatStep f now history raw).map (fun o =>
      (o.assistant_message, o.source_citation, o.is_unknown,
        o.is_safety_refusal)) =
      some (noRelevantMsg, "none", false, false) := by
  rw [chatStep_main f now history raw hne hc]
  simp [mainOutcome, generateResponse, hs, hg, hf]
  decide

/-- Witness for the amended C2 at a concrete no-grounding query. -/
theorem no_grounding_reply_and_flags_witness :
    stripStr "information on zzz" ≠ "" ∧
    (needsClarification (resolvePronouns []
      (stripStr "information on zzz"))).1 = false ∧
    checkSafety (stripStr "information on zzz") = none ∧
    isGreeting (stripStr "information on zzz") = false ∧
    filterResults (stripStr "information on zzz")
      (pipelineBest emptySearch [] "information on zzz") = [] ∧
    (chatStep emptySearch "t" [] "information on zzz").map (fun o =>
      (o.assistant_message, o.source_citation, o.is_unknown,
        o.is_safety_refusal)) =
      some (noRelevantMsg, "none", false, false) :=
  ⟨by decide, by decide, by decide, by decide, by decide,
    no_grounding_reply_and_flags emptySearch "t" [] "information on zzz"
      (by decide) (by decide) (by decide) (by decide) (by decide)⟩

/-- C3 counterexample: a query matching the harmful trigger set produces
the policy refusal reply, but the logged is_safety_refusal flag is false,
because the handler detects safety refusals by searching the reply for a
phrase that only the medical-advice refusal contains. This refutes the
claim that every unsafe turn carries isSafetyRefusal equal true. -/
theorem harmful_refusal_not_flagged :
    checkSafety (stripStr "how to hack") = some policyRefusalMsg ∧
    (chatStep emptySearch "t" [] "how to hack").map
      (fun o => (o.assistant_message, o.is_safety_refusal)) =
      some (policyRefusalMsg, false) :=
  ⟨by decide, by decide⟩

/-- C3 amended: every query the safety gate deems unsafe (and that the
clarification check does not intercept first) produces a terminal refusal
reply with citation none, drawn from the two fixed refusal texts; the
logged event carries is_safety_refusal equal true exactly when the refusal
is the medical-advice refusal, so harmful-set refusals are logged with the
flag false. -/
theorem unsafe_query_refusal_flags (f : SearchFn) (now : String)
    (history : List Turn) (raw r : String)
    (hne : stripStr raw ≠ "")
    (hc : (needsClarification
      (resolvePronouns history (stripStr raw))).1 = false)
    (hs : checkSafety (stripStr raw) = some r) :
    (r = medicalRefusalMsg ∨ r = policyRefusalMsg) ∧
    (chatStep f now history raw).map (fun o =>
      (o.assistant_message, o.source_citation, o.is_clarification)) =
      some (r, "none", false) ∧
    ((chatStep f now history raw).map (fun o => o.is_safety_refusal) =
      some true ↔ r = medicalRefusalMsg) := by
  refine ⟨checkSafety_cases hs, ?_, ?_⟩ <;>
    rw [chatStep_main f now history raw hne hc] <;>
    rcases checkSafety_cases hs with h | h <;> subst h <;>
    simp [mainOutcome, generateResponse, hs] <;> decide

/-- Witness for the amended C3 at a concrete medical-advice query. -/
theorem unsafe_query_refusal_flags_witness :
    stripStr "can i take more tablets" ≠ "" ∧
    (needsClarification (resolvePronouns []
      (stripStr "can i take more tablets"))).1 = false ∧
    checkSafety (stripStr "can i take more tablets") =
      some medicalRefusalMsg ∧
    ((medicalRefusalMsg = medicalRefusalMsg ∨
      medicalRefusalMsg = policyRefusalMsg) ∧
    (chatStep emptySearch "t" [] "can i take more tablets").map (fun o =>
      (o.assistant_message, o.source_citation, o.is_clarification)) =
      some (medicalRefusalMsg, "none", false) ∧
    ((chatStep emptySearch "t" [] "can i take more tablets").map
      (fun o => o.is_safety_refusal) = some true ↔
      medicalRefusalMsg = medicalRefusalMsg)) :=
  ⟨by decide, by decide, by decide,
    unsafe_query_refusal_flags emptySearch "t" [] "can i take more tablets"
      medicalRefusalMsg (by decide) (by decide) (by decide)⟩

/-- C10: a turn on which the clarification check triggers terminates with
the fixed clarification prompt, leaves the session history unchanged (no
turn is appended), never invokes search or synthesis, and therefore
pronoun resolution for any next query still consults the same history as
before the clarification turn. -/
theorem clarification_preserves_history (f : SearchFn) (now : String)
    (history : List Turn) (raw next : String)
    (hne : stripStr raw ≠ "")
    (hc : (needsClarification
      (resolvePronouns history (stripStr raw))).1 = true) :
    (chatStep f now history raw).map (fun o =>
      (o.history, o.assistant_message, o.source_citation,
        o.is_clarification, o.searchInvoked, o.synthesisInvoked)) =
      some (history, clarificationMsg, "none", true, false, false) ∧
    (chatStep f now history raw).map
      (fun o => resolvePronouns o.history next) =
      some (resolvePronouns history next) := by
  rw [chatStep_clar f now history raw hne hc]
  simp [clarOutcome, needsClarification_snd hc]

/-- Witness for C10 at a concrete clarification-triggering turn. -/
theorem clarification_preserves_history_witness :
    stripStr "what is the dose" ≠ "" ∧
    (needsClarification (resolvePronouns []
      (stripStr "what is the dose"))).1 = true ∧
    ((chatStep emptySearch "t" [] "what is the dose").map (fun o =>
      (o.history, o.assistant_message, o.source_citation,
        o.is_clarification, o.searchInvoked, o.synthesisInvoked)) =
      some ([], clarificationMsg, "none", true, false, false) ∧
    (chatStep emptySearch "t" [] "what is the dose").map
      (fun o => resolvePronouns o.history "ok") =
      some (resolvePronouns [] "ok")) :=
  ⟨by decide, by decide,
    clarification_preserves_history emptySearch "t" [] "what is the dose"
      "ok" (by decide) (by decide)⟩

end PharmaBot
